import Mathlib

/-
Verification development for the OCR decision and orchestration core of the
simple-pdf-rag-cli repository (src/rag/document_loader.py and src/rag/ocr.py).
Each Python function of the core is embedded as an executable Lean definition;
external effects (document inspection, page rendering, recognition backends,
the file system) are modelled as explicit data passed to the definitions.
-/

namespace SimplePdfRag

/-- Lowercase conversion of a string, one character at a time; embeds the
Python expression engine.lower() used in get_ocr_engine (src/rag/ocr.py,
lines 225 and 244). -/
def strLower (s : String) : String := String.mk (s.data.map Char.toLower)

/-- Helper for splitting a character list at every occurrence of a separator,
keeping empty components, as Python str.split does for a one-character
separator. -/
def splitCharAux (sep : Char) : List Char → List Char → List String
  | [], acc => [String.mk acc.reverse]
  | c :: rest, acc =>
    if c = sep then String.mk acc.reverse :: splitCharAux sep rest []
    else splitCharAux sep rest (c :: acc)

/-- Splitting a string at each occurrence of a separator character; embeds the
Python expression lang.split with a one-character separator (src/rag/ocr.py,
lines 99 and 167). -/
def splitOnChar (sep : Char) (s : String) : List String := splitCharAux sep s.data []

/-- One page of an opened PDF document as inspected by needs_ocr
(src/rag/document_loader.py, lines 86 to 96): the character count of the
embedded text returned by page.get_text and the number of embedded images
returned by page.get_images. -/
structure Page where
  textLen : Nat
  imageCount : Nat
deriving DecidableEq, Repr

/-- An opened PDF document: an ordered sequence of pages. -/
structure Document where
  pages : List Page
deriving DecidableEq, Repr

/-- Number of pages inspected by needs_ocr: pages_to_check = min(5, len(doc))
(src/rag/document_loader.py, line 84). -/
def pagesToCheck (doc : Document) : Nat := min 5 doc.pages.length

/-- The pages actually inspected by the needs_ocr loop
(src/rag/document_loader.py, lines 86 to 96). -/
def inspectedPages (doc : Document) : List Page := doc.pages.take (pagesToCheck doc)

/-- Accumulated embedded-text character count over the inspected pages
(src/rag/document_loader.py, lines 90 and 91). -/
def totalTextLen (doc : Document) : Nat := ((inspectedPages doc).map Page.textLen).sum

/-- Whether at least one inspected page carries an embedded image
(src/rag/document_loader.py, lines 93 to 96). -/
def hasImages (doc : Document) : Bool :=
  (inspectedPages doc).any (fun p => decide (0 < p.imageCount))

/-- Decision rule of needs_ocr on a successfully opened document
(src/rag/document_loader.py, lines 100 to 108). -/
def needsOcrOpened (doc : Document) : Bool :=
  if hasImages doc = true ∧ totalTextLen doc < 100 * pagesToCheck doc then true
  else if totalTextLen doc < 50 * pagesToCheck doc then true
  else false

/-- Embeds needs_ocr (src/rag/document_loader.py, lines 68 to 111). The
argument is the outcome of opening and inspecting the document: an error value
models any exception raised while inspecting. The result pairs the returned
boolean with the list of emitted warning messages; the except branch returns
False after logging one warning. -/
def needs_ocr (inspection : Except String Document) : Bool × List String :=
  match inspection with
  | Except.ok doc => (needsOcrOpened doc, [])
  | Except.error e =>
      (false, ["Error checking if PDF needs OCR: " ++ e ++ ". Assuming regular PDF."])

/-- A rendered page bitmap (src/rag/ocr.py, lines 293 to 297): pixel size and
whether the pixmap carries an alpha channel. -/
structure RasterImage where
  width : Nat
  height : Nat
  alpha : Bool
deriving DecidableEq, Repr

/-- The default no-op preprocessing step OCRBase.preprocess_image
(src/rag/ocr.py, lines 47 to 58). -/
def preprocess_image (img : RasterImage) : RasterImage := img

/-- A constructed recognition engine, reduced to its extract_text behaviour. -/
structure Engine where
  extractText : RasterImage → String

/-- Embeds TesseractOCR.extract_text (src/rag/ocr.py, lines 119 to 136). The
backend argument models pytesseract.image_to_string: an error value models the
exception caught by the except branch, which logs and returns the empty
string. -/
def tesseractOCR (backend : RasterImage → Except String String) : Engine :=
  Engine.mk (fun img =>
    match backend (preprocess_image img) with
    | Except.ok t => t
    | Except.error _ => "")

/-- Embeds EasyOCR.extract_text (src/rag/ocr.py, lines 185 to 209). The
backend argument models reader.readtext, which yields a list of text fragments
joined with a newline; an error value models the exception caught by the
except branch, which logs and returns the empty string. -/
def easyOCR (backend : RasterImage → Except String (List String)) : Engine :=
  Engine.mk (fun img =>
    match backend (preprocess_image img) with
    | Except.ok parts => String.intercalate "\n" parts
    | Except.error _ => "")

/-- Per-code translation used for custom language combinations in
EasyOCR.__init__ (src/rag/ocr.py, lines 169 to 176). -/
def mapLangCode (part : String) : String :=
  if part = "tha" then "th" else if part = "eng" then "en" else part

/-- Embeds the language-list computation of EasyOCR.__init__
(src/rag/ocr.py, lines 154 to 176): a fixed four-entry table consulted first,
then a code-by-code mapping of the plus-separated components. -/
def easyocr_lang (lang : String) : List String :=
  if lang = "tha" then ["th"]
  else if lang = "eng" then ["en"]
  else if lang = "tha+eng" then ["th", "en"]
  else if lang = "eng+tha" then ["en", "th"]
  else (splitOnChar '+' lang).map mapLangCode

/-- Outcome of running TesseractOCR.__init__: a propagated exception, a logged
warning with successful construction, or silent success. -/
inductive InitOutcome where
  | failed (msg : String)
  | warned (msg : String)
  | ok
deriving DecidableEq, Repr

/-- True exactly when construction propagated an exception to the caller. -/
def InitOutcome.isFailed : InitOutcome → Bool
  | InitOutcome.failed _ => true
  | _ => false

/-- Embeds the language-availability check of TesseractOCR.__init__
(src/rag/ocr.py, lines 96 to 117). The getLangs argument models
pytesseract.get_languages: an error value models a failure of the verification
infrastructure. The whole check, including the RuntimeError raised for a
missing language code, sits inside one try block whose except branch catches
every exception and logs a warning, so no outcome of this check propagates. -/
def tesseractLangCheck (lang : String) (getLangs : Except String (List String)) : InitOutcome :=
  match getLangs with
  | Except.error e => InitOutcome.warned ("Could not verify language availability: " ++ e)
  | Except.ok available =>
    match (splitOnChar '+' lang).find? (fun code => !(available.contains code)) with
    | some missing =>
        InitOutcome.warned
          ("Could not verify language availability: Language " ++ missing ++
            " not found in available languages")
    | none => InitOutcome.ok

/-- Embeds TesseractOCR.__init__ (src/rag/ocr.py, lines 64 to 117): import
failure and a missing binary propagate; the language check then runs inside
its own try block. -/
def tesseractInit (importOk : Bool) (versionOk : Bool)
    (getLangs : Except String (List String)) (lang : String) : InitOutcome :=
  if importOk = false then InitOutcome.failed "ImportError: pytesseract is not installed"
  else if versionOk = false then
    InitOutcome.failed "RuntimeError: Could not find Tesseract executable"
  else tesseractLangCheck lang getLangs

/-- Outcome of a Python call at keyword-binding time: success, TypeError for
the first unexpected or duplicated keyword argument, or ValueError. -/
inductive CallOutcome where
  | ok
  | typeError (badArg : String)
  | valueError (msg : String)
deriving DecidableEq, Repr

/-- Python keyword-binding semantics for a constructor call: the call raises
TypeError at the first keyword argument that the constructor does not accept
or that is also passed explicitly by the caller. -/
def callConstructor (accepted explicitKw kwargNames : List String) : CallOutcome :=
  match kwargNames.find? (fun k => !(accepted.contains k) || explicitKw.contains k) with
  | some bad => CallOutcome.typeError bad
  | none => CallOutcome.ok

/-- Keyword parameters accepted by TesseractOCR.__init__ besides self
(src/rag/ocr.py, line 64). -/
def tesseractInitKeywords : List String := ["lang", "dpi", "tesseract_cmd", "tessdata_dir"]

/-- Keyword parameters accepted by EasyOCR.__init__ besides self
(src/rag/ocr.py, line 142). -/
def easyocrInitKeywords : List String := ["lang", "dpi", "use_gpu"]

/-- Embeds get_ocr_engine (src/rag/ocr.py, lines 212 to 247) at the level of
keyword binding. The discovered flag models whether the tessdata auto-discovery
loop found a well-known directory; it only runs when tessdata_dir is not among
the forwarded keyword arguments. Unknown engine names raise ValueError. -/
def get_ocr_engine (engine : String) (discovered : Bool) (kwargNames : List String) :
    CallOutcome :=
  if strLower engine = "tesseract" then
    callConstructor tesseractInitKeywords ["lang", "dpi"]
      (if kwargNames.contains "tessdata_dir" then kwargNames
       else if discovered then kwargNames ++ ["tessdata_dir"] else kwargNames)
  else if strLower engine = "easyocr" then
    callConstructor easyocrInitKeywords ["lang", "dpi"] kwargNames
  else CallOutcome.valueError ("Unsupported OCR engine: " ++ engine)

/-- The extra keyword arguments that load_document always forwards to
convert_pdf_to_text beyond its named parameters
(src/rag/document_loader.py, lines 152 to 161), in call order. -/
def loaderOcrKwargs : List String := ["use_gpu", "tesseract_cmd", "tessdata_dir"]

/-- A file system modelled as a list of existing directories and an
association list from file paths to contents; paths are component lists. -/
structure FileSystem where
  dirs : List (List String)
  files : List (List String × String)
deriving DecidableEq, Repr

/-- Embeds os.path.exists for a file path. -/
def fileExists (fs : FileSystem) (p : List String) : Bool :=
  fs.files.any (fun f => decide (f.1 = p))

/-- Contents stored at a path, if any. -/
def readFile (fs : FileSystem) (p : List String) : Option String :=
  (fs.files.find? (fun f => decide (f.1 = p))).map Prod.snd

/-- Whether a directory exists. -/
def dirExists (fs : FileSystem) (p : List String) : Bool :=
  fs.dirs.any (fun q => decide (q = p))

/-- Embeds os.unlink. -/
def removeFile (fs : FileSystem) (p : List String) : FileSystem :=
  FileSystem.mk fs.dirs (fs.files.filter (fun f => decide (f.1 ≠ p)))

/-- Every ancestor directory of a path, the empty root included. -/
def initialSegs (p : List String) : List (List String) :=
  (List.range (p.length + 1)).map (fun k => p.take k)

/-- Embeds output_path.parent.mkdir(parents=True, exist_ok=True) followed by
writing the file as UTF-8, overwriting any previous contents
(src/rag/ocr.py, lines 309 to 314). -/
def writeFileUtf8 (fs : FileSystem) (p : List String) (content : String) : FileSystem :=
  FileSystem.mk (initialSegs p.dropLast ++ fs.dirs)
    ((p, content) :: fs.files.filter (fun f => decide (f.1 ≠ p)))

/-- The per-page block appended by the convert loop
(src/rag/ocr.py, line 303): the literal page marker line, the recognized
text, and a blank line. -/
def pageBlock (n : Nat) (text : String) : String :=
  "--- Page " ++ toString n ++ " ---\n" ++ text ++ "\n\n"

/-- Concatenation of a list of strings in order, as the += loop of
convert_pdf_to_text accumulates all_text. -/
def concatAll : List String → String
  | [] => ""
  | s :: rest => s ++ concatAll rest

/-- The page blocks for a list of page texts whose first marker number is
start. -/
def pageBlocksFrom (start : Nat) (texts : List String) : List String :=
  ((List.range' start texts.length).zip texts).map (fun q => pageBlock q.1 q.2)

/-- The page blocks of an assembled output, markers numbered from 1. -/
def pageBlocks (texts : List String) : List String := pageBlocksFrom 1 texts

/-- The marker numbers appearing in an assembled output of n pages. -/
def blockNumbers (n : Nat) : List Nat := List.range' 1 n

/-- Embeds the per-page loop of convert_pdf_to_text
(src/rag/ocr.py, lines 289 to 303). Each list entry is the rendering outcome
of one page in order: an error value models an exception raised by
page.get_pixmap, which propagates and aborts the loop; a successful render is
passed to the engine extract_text, which is total. -/
def convertLoop (E : Engine) (i : Nat) (pages : List (Except String RasterImage)) :
    Except String String :=
  match pages with
  | [] => Except.ok ""
  | pg :: rest =>
    match pg with
    | Except.error e => Except.error e
    | Except.ok img =>
      match convertLoop E (i + 1) rest with
      | Except.error e => Except.error e
      | Except.ok restText => Except.ok (pageBlock (i + 1) (E.extractText img) ++ restText)

/-- Embeds convert_pdf_to_text (src/rag/ocr.py, lines 250 to 318): existence
check on the input path, engine construction through the factory, the per-page
render and recognition loop, and optional persistence of the assembled text.
The engine argument is the recognition behaviour the factory would construct
when the keyword binding succeeds. -/
def convert_pdf_to_text (fs : FileSystem) (pdfExists : Bool) (engine : String)
    (discovered : Bool) (kwargNames : List String) (E : Engine)
    (outputPath : Option (List String)) (pages : List (Except String RasterImage)) :
    Except String (String × FileSystem) :=
  if pdfExists = false then Except.error "FileNotFoundError: PDF file not found"
  else
    match get_ocr_engine engine discovered kwargNames with
    | CallOutcome.typeError bad =>
        Except.error ("TypeError: unexpected keyword argument " ++ bad)
    | CallOutcome.valueError msg => Except.error msg
    | CallOutcome.ok =>
      match convertLoop E 0 pages with
      | Except.error e => Except.error e
      | Except.ok allText =>
        match outputPath with
        | none => Except.ok (allText, fs)
        | some p => Except.ok (allText, writeFileUtf8 fs p allText)

/-- Embeds the OCR branch of load_document
(src/rag/document_loader.py, lines 139 to 182): a temporary text artifact is
created, the conversion step conv runs with the file system it left behind,
the artifact is loaded through the plain-text path, and the artifact is
unlinked; any failure is caught, the artifact unlinked when it still exists,
and the non-OCR fallback documents returned. -/
def load_document_ocr (fs : FileSystem) (tempPath : List String)
    (conv : FileSystem → Except String (String × FileSystem))
    (loadTemp : FileSystem → List String → Except String (List String))
    (fallbackDocs : List String) : List String × FileSystem :=
  let fs0 := writeFileUtf8 fs tempPath ""
  match conv fs0 with
  | Except.ok (_t, fs1) =>
    match loadTemp fs1 tempPath with
    | Except.ok docs => (docs, removeFile fs1 tempPath)
    | Except.error _ =>
        (fallbackDocs, if fileExists fs1 tempPath then removeFile fs1 tempPath else fs1)
  | Except.error _ =>
      (fallbackDocs, if fileExists fs0 tempPath then removeFile fs0 tempPath else fs0)

/-- A concrete bitmap used by witnesses. -/
def sampleImg : RasterImage := RasterImage.mk 8 8 false

/-- A recognition backend that always fails, used by witnesses. -/
def boomBackend : RasterImage → Except String String := fun _ => Except.error "boom"

/-- A neural recognition backend that always fails, used by witnesses. -/
def crashBackend : RasterImage → Except String (List String) := fun _ => Except.error "crash"

/-- A recognition backend that always reads the word hello, used by
witnesses. -/
def helloBackend : RasterImage → Except String String := fun _ => Except.ok "hello"

/-- The engine built from helloBackend. -/
def helloEngine : Engine := tesseractOCR helloBackend

/-- The empty file system, used by witnesses. -/
def emptyFs : FileSystem := FileSystem.mk [] []

/-- A conversion step that always fails, used by witnesses. -/
def failConv : FileSystem → Except String (String × FileSystem) := fun _ => Except.error "fail"

/-- A plain-text loading step that always succeeds, used by witnesses. -/
def okLoadTemp : FileSystem → List String → Except String (List String) :=
  fun _ _ => Except.ok ["loaded"]

/-- A concrete temporary-artifact path, used by witnesses. -/
def samplePath : List String := ["tmp", "ocr.txt"]

/-- A concrete one-page render list, used by witnesses. -/
def sampleRenders : List (Except String RasterImage) := [Except.ok sampleImg]

/-- The assembly of a run whose recognitions all happen: one block per image
in order, markers numbered from the loop position. -/
theorem convertLoop_map_ok (E : Engine) (imgs : List RasterImage) (i : Nat) :
    convertLoop E i (imgs.map Except.ok)
      = Except.ok (concatAll (pageBlocksFrom (i + 1) (imgs.map E.extractText))) := by
  induction imgs generalizing i with
  | nil => rfl
  | cons img rest ih =>
    simp only [List.map_cons, convertLoop, ih]
    simp [pageBlocksFrom, List.range'_succ, concatAll, List.zip]

/-- A completed conversion loop means every page render succeeded. -/
theorem convertLoop_ok_renders (E : Engine) :
    ∀ (pages : List (Except String RasterImage)) (i : Nat) (t : String),
      convertLoop E i pages = Except.ok t →
        ∃ imgs : List RasterImage, pages = imgs.map Except.ok := by
  intro pages
  induction pages with
  | nil => exact fun i t _ => ⟨[], rfl⟩
  | cons pg rest ih =>
    intro i t h
    cases pg with
    | error e => simp [convertLoop] at h
    | ok img =>
      simp only [convertLoop] at h
      cases hrec : convertLoop E (i + 1) rest with
      | error e => rw [hrec] at h; exact absurd h (by simp)
      | ok rt =>
        obtain ⟨imgs, hi⟩ := ih (i + 1) rt hrec
        exact ⟨img :: imgs, by simp [hi]⟩

/-- The first failing render aborts the loop with its error. -/
theorem convertLoop_render_error (E : Engine) (good : List RasterImage) (e : String)
    (rest : List (Except String RasterImage)) (i : Nat) :
    convertLoop E i (good.map Except.ok ++ Except.error e :: rest) = Except.error e := by
  induction good generalizing i with
  | nil => rfl
  | cons g gs ih => simp [convertLoop, ih]

/-- Writing a file stores exactly the written contents at the path. -/
theorem readFile_writeFileUtf8 (fs : FileSystem) (p : List String) (c : String) :
    readFile (writeFileUtf8 fs p c) p = some c := by
  simp [readFile, writeFileUtf8, List.find?]

/-- Writing a file creates every ancestor directory of its parent. -/
theorem dirs_created (fs : FileSystem) (p : List String) (c : String) :
    (initialSegs p.dropLast).all
      (fun q => dirExists (writeFileUtf8 fs p c) q) = true := by
  simp only [List.all_eq_true, dirExists, writeFileUtf8, List.any_eq_true]
  intro q hq
  exact ⟨q, List.mem_append_left _ hq, by simp⟩

/-- Unlinking a file removes it. -/
theorem fileExists_removeFile (fs : FileSystem) (p : List String) :
    fileExists (removeFile fs p) p = false := by
  simp [fileExists, removeFile, List.any_eq_true, List.mem_filter]

/-- The factory succeeds for the tesseract engine when no extra keyword
arguments are forwarded. -/
theorem get_ocr_engine_tesseract_empty (discovered : Bool) :
    get_ocr_engine "tesseract" discovered [] = CallOutcome.ok := by
  cases discovered <;> decide

/-- C1: needs_ocr inspects exactly min(5, page count) pages of a document that
opens successfully, and reports OCR needed exactly when either at least one
inspected page has an embedded image and the accumulated text length is below
100 times the inspected page count, or the accumulated text length is below 50
times the inspected page count (src/rag/document_loader.py, lines 78 to 108). -/
theorem needs_ocr_decision_rule (doc : Document) :
    (inspectedPages doc).length = min 5 doc.pages.length ∧
    ((needs_ocr (Except.ok doc)).1 = true ↔
      ((hasImages doc = true ∧ totalTextLen doc < 100 * pagesToCheck doc) ∨
        totalTextLen doc < 50 * pagesToCheck doc)) := by
  constructor
  · simp only [inspectedPages, pagesToCheck, List.length_take]
    omega
  · simp only [needs_ocr, needsOcrOpened]
    split_ifs with h1 h2 <;> simp_all

/-- C10: needs_ocr never raises to its caller: when inspecting the document
fails for any reason, it logs exactly one warning and reports that OCR is not
needed (src/rag/document_loader.py, lines 109 to 111). -/
theorem needs_ocr_fails_open (e : String) :
    (needs_ocr (Except.error e)).1 = false ∧ (needs_ocr (Except.error e)).2.length = 1 := by
  constructor <;> rfl

/-- C9: the EasyOCR engine computes its language list from the fixed
four-entry table for the keys tha, eng, tha+eng and eng+tha, and otherwise
splits the lang string on plus signs and maps each component code by code,
tha to th, eng to en, anything else unchanged, preserving order
(src/rag/ocr.py, lines 154 to 176). -/
theorem easyocr_language_translation (lang : String)
    (h : lang ∉ (["tha", "eng", "tha+eng", "eng+tha"] : List String)) :
    easyocr_lang "tha" = ["th"] ∧ easyocr_lang "eng" = ["en"] ∧
    easyocr_lang "tha+eng" = ["th", "en"] ∧ easyocr_lang "eng+tha" = ["en", "th"] ∧
    easyocr_lang lang = (splitOnChar '+' lang).map mapLangCode ∧
    easyocr_lang "fr" = ["fr"] := by
  refine ⟨by decide, by decide, by decide, by decide, ?_, by decide⟩
  simp only [List.mem_cons, List.not_mem_nil, or_false] at h
  push_neg at h
  obtain ⟨h1, h2, h3, h4⟩ := h
  simp [easyocr_lang, h1, h2, h3, h4]

/-- Witness for C9 at the unmapped language code fr. -/
theorem easyocr_language_translation_witness :
    easyocr_lang "tha" = ["th"] ∧ easyocr_lang "eng" = ["en"] ∧
    easyocr_lang "tha+eng" = ["th", "en"] ∧ easyocr_lang "eng+tha" = ["en", "th"] ∧
    easyocr_lang "fr" = (splitOnChar '+' "fr").map mapLangCode ∧
    easyocr_lang "fr" = ["fr"] :=
  easyocr_language_translation "fr" (by decide)

/-- C2 is false on the code: when the available-language list is retrieved
successfully and a requested code is absent, the RuntimeError raised inside
TesseractOCR.__init__ is caught by the enclosing except block, which logs a
warning and lets construction succeed; the language check never propagates a
configuration error for any input (src/rag/ocr.py, lines 96 to 117). -/
theorem tesseract_missing_language_only_warns :
    (tesseractInit true true (Except.ok ["eng"]) "tha").isFailed = false ∧
    tesseractInit true true (Except.ok ["eng"]) "tha"
      = InitOutcome.warned
          "Could not verify language availability: Language tha not found in available languages" ∧
    ∀ (lang : String) (gl : Except String (List String)),
      (tesseractLangCheck lang gl).isFailed = false := by
  refine ⟨by decide, by decide, ?_⟩
  intro lang gl
  cases gl with
  | error e => rfl
  | ok avail =>
    simp only [tesseractLangCheck]
    cases h : (splitOnChar '+' lang).find? (fun code => !(avail.contains code)) with
    | none => rfl
    | some missing => rfl

/-- C5: extract_text never raises on either engine: a failing recognition
backend is caught and reported as the empty string (src/rag/ocr.py, lines 119
to 136 and 185 to 209), and a conversion whose renders all succeed always
completes with one block per page, each block the extract_text value of its
own page, so one unreadable page yields an empty block and leaves every other
page unaffected. -/
theorem extract_text_never_raises
    (b : RasterImage → Except String String)
    (bE : RasterImage → Except String (List String))
    (img : RasterImage) (e eL : String)
    (hb : b (preprocess_image img) = Except.error e)
    (hbE : bE (preprocess_image img) = Except.error eL)
    (imgsA imgsB : List RasterImage) :
    (tesseractOCR b).extractText img = "" ∧
    (easyOCR bE).extractText img = "" ∧
    convertLoop (tesseractOCR b) 0 ((imgsA ++ img :: imgsB).map Except.ok)
      = Except.ok (concatAll (pageBlocks
          ((imgsA ++ img :: imgsB).map (tesseractOCR b).extractText))) := by
  refine ⟨by simp [tesseractOCR, hb], by simp [easyOCR, hbE], ?_⟩
  exact convertLoop_map_ok (tesseractOCR b) (imgsA ++ img :: imgsB) 0

/-- Witness for C5: a one-page conversion whose only page fails recognition. -/
theorem extract_text_never_raises_witness :
    (tesseractOCR boomBackend).extractText sampleImg = "" ∧
    (easyOCR crashBackend).extractText sampleImg = "" ∧
    convertLoop (tesseractOCR boomBackend) 0 (([] ++ sampleImg :: []).map Except.ok)
      = Except.ok (concatAll (pageBlocks
          (([] ++ sampleImg :: []).map (tesseractOCR boomBackend).extractText))) :=
  extract_text_never_raises boomBackend crashBackend sampleImg "boom" "crash" rfl rfl [] []

/-- C4: whenever convert_pdf_to_text completes, every page render succeeded and
the returned text is the concatenation of one block per document page in page
order, each block starting with the literal page marker line followed by that
page text and a blank line; the marker count equals the page count and the
marker numbers are exactly 1 through the page count, strictly increasing
(src/rag/ocr.py, lines 284 to 306). -/
theorem convert_output_format (fs fs2 : FileSystem) (discovered : Bool) (E : Engine)
    (outP : Option (List String)) (pages : List (Except String RasterImage)) (t : String)
    (h : convert_pdf_to_text fs true "tesseract" discovered [] E outP pages
          = Except.ok (t, fs2)) :
    ∃ imgs : List RasterImage,
      pages = imgs.map Except.ok ∧
      t = concatAll (pageBlocks (imgs.map E.extractText)) ∧
      (pageBlocks (imgs.map E.extractText)).length = pages.length ∧
      List.Pairwise (fun a b => a < b) (blockNumbers pages.length) ∧
      (∀ k : Nat, k ∈ blockNumbers pages.length ↔ 1 ≤ k ∧ k ≤ pages.length) := by
  rw [convert_pdf_to_text, if_neg (by simp), get_ocr_engine_tesseract_empty] at h
  cases hloop : convertLoop E 0 pages with
  | error e => rw [hloop] at h; exact absurd h (by simp)
  | ok allText =>
    rw [hloop] at h
    obtain ⟨imgs, hi⟩ := convertLoop_ok_renders E pages 0 allText hloop
    have ht : t = allText := by
      cases outP with
      | none =>
        simp only [Except.ok.injEq, Prod.mk.injEq] at h
        exact h.1.symm
      | some p =>
        simp only [Except.ok.injEq, Prod.mk.injEq] at h
        exact h.1.symm
    have hall : allText = concatAll (pageBlocks (imgs.map E.extractText)) := by
      rw [hi] at hloop
      rw [convertLoop_map_ok E imgs 0] at hloop
      exact (Except.ok.injEq _ _).mp hloop.symm |>.symm ▸ rfl
    refine ⟨imgs, hi, ht.trans hall, ?_, ?_, ?_⟩
    · simp [pageBlocks, pageBlocksFrom, hi]
    · exact List.pairwise_lt_range' 1 pages.length 1
    · intro k
      rw [blockNumbers, List.mem_range'_1]
      omega

/-- Witness for C4: a completed one-page conversion. -/
theorem convert_output_format_witness :
    ∃ imgs : List RasterImage,
      sampleRenders = imgs.map Except.ok ∧
      ("--- Page 1 ---\nhello\n\n" : String)
        = concatAll (pageBlocks (imgs.map helloEngine.extractText)) ∧
      (pageBlocks (imgs.map helloEngine.extractText)).length = sampleRenders.length ∧
      List.Pairwise (fun a b => a < b) (blockNumbers sampleRenders.length) ∧
      (∀ k : Nat, k ∈ blockNumbers sampleRenders.length ↔
        1 ≤ k ∧ k ≤ sampleRenders.length) :=
  convert_output_format emptyFs emptyFs false helloEngine none sampleRenders
    "--- Page 1 ---\nhello\n\n" rfl

/-- C6: a page rendering failure is not isolated: the rendering error
propagates out of convert_pdf_to_text, the whole conversion aborts and no
assembled text is returned, whatever pages follow; by contrast the loop always
completes when every render succeeds, recognition outcomes notwithstanding
(src/rag/ocr.py, lines 289 to 303). -/
theorem render_failure_aborts (fs : FileSystem) (discovered : Bool) (E : Engine)
    (outP : Option (List String)) (good : List RasterImage) (e : String)
    (rest : List (Except String RasterImage)) :
    convert_pdf_to_text fs true "tesseract" discovered [] E outP
        (good.map Except.ok ++ Except.error e :: rest)
      = Except.error e ∧
    ∀ imgs : List RasterImage, ∃ t : String,
      convertLoop E 0 (imgs.map Except.ok) = Except.ok t := by
  constructor
  · rw [convert_pdf_to_text, if_neg (by simp), get_ocr_engine_tesseract_empty,
      convertLoop_render_error]
  · exact fun imgs => ⟨_, convertLoop_map_ok E imgs 0⟩

/-- C8: with an output path, convert_pdf_to_text creates every missing parent
directory, stores the assembled text at the path as its exact contents,
overwriting whatever was there, and returns the assembled text; without an
output path it returns the same text and leaves the file system unchanged
(src/rag/ocr.py, lines 308 to 318). -/
theorem convert_writes_output (fs : FileSystem) (discovered : Bool) (E : Engine)
    (p : List String) (imgs : List RasterImage) :
    convert_pdf_to_text fs true "tesseract" discovered [] E (some p) (imgs.map Except.ok)
      = Except.ok (concatAll (pageBlocks (imgs.map E.extractText)),
          writeFileUtf8 fs p (concatAll (pageBlocks (imgs.map E.extractText)))) ∧
    readFile (writeFileUtf8 fs p (concatAll (pageBlocks (imgs.map E.extractText)))) p
      = some (concatAll (pageBlocks (imgs.map E.extractText))) ∧
    (initialSegs p.dropLast).all
      (fun q => dirExists
        (writeFileUtf8 fs p (concatAll (pageBlocks (imgs.map E.extractText)))) q) = true ∧
    convert_pdf_to_text fs true "tesseract" discovered [] E none (imgs.map Except.ok)
      = Except.ok (concatAll (pageBlocks (imgs.map E.extractText)), fs) := by
  refine ⟨?_, readFile_writeFileUtf8 fs p _, dirs_created fs p _, ?_⟩
  · rw [convert_pdf_to_text, if_neg (by simp), get_ocr_engine_tesseract_empty,
      convertLoop_map_ok E imgs 0]
    rfl
  · rw [convert_pdf_to_text, if_neg (by simp), get_ocr_engine_tesseract_empty,
      convertLoop_map_ok E imgs 0]
    rfl

/-- C7: when the conversion step of the loader OCR path fails, the loader
returns the non-OCR fallback documents instead of aborting, and on every path,
success included, the temporary text artifact is absent from the final file
system (src/rag/document_loader.py, lines 139 to 182). -/
theorem loader_cleanup_and_fallback (fs : FileSystem) (tempPath : List String)
    (conv : FileSystem → Except String (String × FileSystem))
    (loadTemp : FileSystem → List String → Except String (List String))
    (fallbackDocs : List String) (e : String)
    (hconv : conv (writeFileUtf8 fs tempPath "") = Except.error e) :
    (load_document_ocr fs tempPath conv loadTemp fallbackDocs).1 = fallbackDocs ∧
    ∀ (conv2 : FileSystem → Except String (String × FileSystem)),
      fileExists (load_document_ocr fs tempPath conv2 loadTemp fallbackDocs).2 tempPath
        = false := by
  constructor
  · simp [load_document_ocr, hconv]
  · intro conv2
    simp only [load_document_ocr]
    cases h : conv2 (writeFileUtf8 fs tempPath "") with
    | error e2 =>
      simp only []
      split_ifs with hex
      · exact fileExists_removeFile _ tempPath
      · simpa using hex
    | ok pair =>
      cases hl : loadTemp pair.2 tempPath with
      | ok docs =>
        obtain ⟨t1, fs1⟩ := pair
        simp only [hl]
        exact fileExists_removeFile _ tempPath
      | error e3 =>
        obtain ⟨t1, fs1⟩ := pair
        simp only [hl]
        split_ifs with hex
        · exact fileExists_removeFile _ tempPath
        · simpa using hex

/-- Witness for C7: a failing conversion step over the empty file system. -/
theorem loader_cleanup_and_fallback_witness :
    (load_document_ocr emptyFs samplePath failConv okLoadTemp ["fallback"]).1
      = ["fallback"] ∧
    ∀ (conv2 : FileSystem → Except String (String × FileSystem)),
      fileExists (load_document_ocr emptyFs samplePath conv2 okLoadTemp ["fallback"]).2
        samplePath = false :=
  loader_cleanup_and_fallback emptyFs samplePath failConv okLoadTemp ["fallback"] "fail" rfl

/-- C3: the loader OCR path forwards the keyword arguments use_gpu,
tesseract_cmd and tessdata_dir through convert_pdf_to_text and get_ocr_engine
into the engine constructor; TesseractOCR.__init__ rejects use_gpu and
EasyOCR.__init__ rejects tesseract_cmd, so engine construction raises
TypeError for either engine name and the loader OCR path always ends in the
non-OCR fallback branch (src/rag/document_loader.py, lines 146 to 177,
src/rag/ocr.py, lines 64, 142 and 212 to 247). -/
theorem loader_kwargs_always_fallback (s : String)
    (hs : strLower s = "tesseract" ∨ strLower s = "easyocr")
    (discovered : Bool) (fs : FileSystem) (pdfE : Bool) (E : Engine)
    (tempPath : List String) (pages : List (Except String RasterImage))
    (loadTemp : FileSystem → List String → Except String (List String))
    (fallbackDocs : List String) :
    get_ocr_engine "tesseract" discovered loaderOcrKwargs
      = CallOutcome.typeError "use_gpu" ∧
    get_ocr_engine "easyocr" discovered loaderOcrKwargs
      = CallOutcome.typeError "tesseract_cmd" ∧
    (∃ bad, get_ocr_engine s discovered loaderOcrKwargs = CallOutcome.typeError bad) ∧
    (load_document_ocr fs tempPath
        (fun fs0 => convert_pdf_to_text fs0 pdfE s discovered loaderOcrKwargs E
          (some tempPath) pages)
        loadTemp fallbackDocs).1 = fallbackDocs := by
  have h3 : ∃ bad, get_ocr_engine s discovered loaderOcrKwargs
      = CallOutcome.typeError bad := by
    cases hs with
    | inl h =>
      refine ⟨"use_gpu", ?_⟩
      rw [get_ocr_engine, h, if_pos rfl]
      cases discovered <;> decide
    | inr h =>
      refine ⟨"tesseract_cmd", ?_⟩
      rw [get_ocr_engine, h, if_neg (by decide), if_pos rfl]
      decide
  refine ⟨by cases discovered <;> decide, by cases discovered <;> decide, h3, ?_⟩
  obtain ⟨bad, hbad⟩ := h3
  have h4 : ∃ e2, convert_pdf_to_text (writeFileUtf8 fs tempPath "") pdfE s discovered
      loaderOcrKwargs E (some tempPath) pages = Except.error e2 := by
    cases pdfE with
    | false => exact ⟨_, by rw [convert_pdf_to_text, if_pos rfl]⟩
    | true => exact ⟨_, by rw [convert_pdf_to_text, if_neg (by simp), hbad]⟩
  obtain ⟨e2, he2⟩ := h4
  simp [load_document_ocr, he2]

/-- Witness for C3 at the engine name tesseract with concrete loader data. -/
theorem loader_kwargs_always_fallback_witness :
    get_ocr_engine "tesseract" false loaderOcrKwargs
      = CallOutcome.typeError "use_gpu" ∧
    get_ocr_engine "easyocr" false loaderOcrKwargs
      = CallOutcome.typeError "tesseract_cmd" ∧
    (∃ bad, get_ocr_engine "tesseract" false loaderOcrKwargs
      = CallOutcome.typeError bad) ∧
    (load_document_ocr emptyFs samplePath
        (fun fs0 => convert_pdf_to_text fs0 true "tesseract" false loaderOcrKwargs
          helloEngine (some samplePath) [])
        okLoadTemp ["fallback"]).1 = ["fallback"] :=
  loader_kwargs_always_fallback "tesseract" (Or.inl (by decide)) false emptyFs true
    helloEngine samplePath [] okLoadTemp ["fallback"]

end SimplePdfRag
